import Mathlib

/-!
Verification of `src/main.cpp` (a minimal GLFW/OpenGL tutorial program).

The program is a linear sequence of windowing-library (GLFW) and graphics-API
(OpenGL) calls plus a render loop.  We embed it shallowly as a function from an
environment `Env` — the values the external libraries would return (window
creation success, loader success, shader compile status, the driver's info log,
per-iteration key state, externally triggered close events) — to the trace of
library calls the program issues (a `List Event`) together with its exit code.
The render loop is given explicit fuel; a `none` exit code means the loop was
still running when the fuel ran out.

Floating-point literals of the source (`-0.5f`, `0.2f`, ...) are modelled as
the exact rationals the source text denotes.
-/

/-! ### GL / GLFW constants (numeric values from the C headers) -/

def GL_ARRAY_BUFFER : Nat := 0x8892
def GL_STATIC_DRAW : Nat := 0x88E4
def GL_VERTEX_SHADER : Nat := 0x8B31
def GL_FRAGMENT_SHADER : Nat := 0x8B30
def GL_COMPILE_STATUS : Nat := 0x8B81
def GL_LINK_STATUS : Nat := 0x8B82
def GL_COLOR_BUFFER_BIT : Nat := 0x4000
def GLFW_KEY_ESCAPE : Nat := 256
def GLFW_PRESS : Nat := 1
def GLFW_RELEASE : Nat := 0
def GLFW_CONTEXT_VERSION_MAJOR : Nat := 0x00022002
def GLFW_CONTEXT_VERSION_MINOR : Nat := 0x00022003
def GLFW_OPENGL_PROFILE : Nat := 0x00022008
def GLFW_OPENGL_CORE_PROFILE : Nat := 0x00032001

/-! ### Embedded source strings (main.cpp lines 11-24) -/

/-- `vertexShaderSource` from main.cpp lines 11-16 (braces written `\x7b`/`\x7d`). -/
def vertexShaderSource : String :=
  "#version 460 core\n" ++
  "layout (location=0) in vec3 aPos;\n" ++
  "void main()\n" ++
  "\x7b\n" ++
  "\tgl_Position = vec4(aPos.x, aPos.y, aPos.z, 1.0);\n" ++
  "\x7d\x00"

/-- `fragmentShaderSource` from main.cpp lines 19-24, with its misspelled
version directive reproduced faithfully. -/
def fragmentShaderSource : String :=
  "#verson 460 core\n" ++
  "out vec4 FragColor;\n" ++
  "void main()\n" ++
  "\x7b\n" ++
  "\tFragColor = vec4(1.0f, 0.5f, 0.2f, 1.0f);\n" ++
  "\x7d\x00"

/-- The `verticies` array of main.cpp lines 65-69 (source's spelling kept),
9 floats, each literal modelled as the exact rational it denotes. -/
def verticies : List ℚ :=
  [-0.5, -0.5, 0.0,
    0.5, -0.5, 0.0,
    0.0,  0.5, 0.0]

/-- `sizeof(verticies)` in C: 9 floats of 4 bytes each. -/
def verticiesSizeof : Nat := verticies.length * 4

/-! ### Object handles

OpenGL hands out fresh ids; the program creates exactly one buffer, two
shaders and one program, so we fix their ids. -/

def VBO : Nat := 1
def vertexShader : Nat := 1
def fragmentShader : Nat := 2
def shaderProgram : Nat := 3

/-! ### The trace alphabet: every GLFW / OpenGL / console call the program
can issue.  `glUseProgram`, `glDrawArrays`, `glDrawElements`,
`glGetProgramiv` are part of the API the program links against; they appear
in the alphabet so that "the program never calls them" is a statement about
the trace, not an artifact of the type. -/

inductive Event where
  | glfwInit
  | glfwWindowHint (hint val : Nat)
  | glfwCreateWindow (width height : Nat) (title : String)
  | printLine (s : String)
  | glfwTerminate
  | glfwMakeContextCurrent
  | glfwSetFramebufferSizeCallback
  | gladLoadGLLoader
  | glGenBuffers (n id : Nat)
  | glBindBuffer (target buf : Nat)
  | glBufferData (target : Nat) (size : Nat) (data : List ℚ) (usage : Nat)
  | glCreateShader (shaderType id : Nat)
  | glShaderSource (shader count : Nat) (src : String)
  | glCompileShader (shader : Nat)
  | glGetShaderiv (shader pname : Nat)
  | glGetShaderInfoLog (shader maxLength : Nat)
  | glCreateProgram (id : Nat)
  | glAttachShader (program shader : Nat)
  | glLinkProgram (program : Nat)
  | glGetProgramiv (program pname : Nat)
  | glUseProgram (program : Nat)
  | glDrawArrays (mode first count : Nat)
  | glDrawElements (mode count : Nat)
  | glfwGetKey (key : Nat)
  | glfwSetWindowShouldClose (b : Bool)
  | glClearColor (r g b a : ℚ)
  | glClear (mask : Nat)
  | glfwSwapBuffers
  | glfwPollEvents
  | glViewport (x y w h : Int)
  deriving DecidableEq, Repr

/-- Environment: what the external libraries return to the program.
`glfwInitOk` is the (ignored) return value of `glfwInit`;
`fragmentCompileOk` and `linkOk` are statuses the driver holds but the
program never queries; `escKeyState` gives the state GLFW reports for the
Escape key at render-loop iteration `n`; `externalClose n` is whether event
processing at iteration `n` (e.g. clicking the window's close button) sets
the window's close flag. -/
structure Env where
  glfwInitOk : Bool
  windowCreated : Bool
  gladOk : Bool
  vertexCompileOk : Bool
  fragmentCompileOk : Bool
  linkOk : Bool
  vertexInfoLog : String
  escKeyState : Nat → Nat
  externalClose : Nat → Bool

/-- `processInput` (main.cpp lines 177-181): query the Escape key; if it is
`GLFW_PRESS`, set the window's close flag.  Returns the calls issued and the
close flag after the call. -/
def processInput (escKey : Nat) (closeFlag : Bool) : List Event × Bool :=
  if escKey = GLFW_PRESS then
    ([Event.glfwGetKey GLFW_KEY_ESCAPE, Event.glfwSetWindowShouldClose true], true)
  else
    ([Event.glfwGetKey GLFW_KEY_ESCAPE], closeFlag)

/-- `framebuffer_size_callback` (main.cpp lines 172-174). -/
def framebuffer_size_callback (width height : Int) : Event :=
  Event.glViewport 0 0 width height

/-- One iteration of the render-loop body (main.cpp lines 142-159):
process input, set the clear color, clear the color buffer, swap buffers,
poll events.  `glfwPollEvents` may itself set the close flag via
`externalClose`. -/
def loopIter (escKey : Nat) (ext : Bool) (closeFlag : Bool) : List Event × Bool :=
  let p := processInput escKey closeFlag
  (p.1 ++
    [Event.glClearColor 0.2 0.3 0.3 1.0,
     Event.glClear GL_COLOR_BUFFER_BIT,
     Event.glfwSwapBuffers,
     Event.glfwPollEvents],
   p.2 || ext)

/-- The render loop (main.cpp lines 141-159): while the close flag is unset,
run the body.  `fuel` bounds the number of iterations we unfold; the second
component is `some ()` if the loop exited via the close flag and `none` if
fuel ran out with the loop still running. -/
def renderLoop (esc : Nat → Nat) (ext : Nat → Bool) :
    Nat → Nat → Bool → List Event × Option Unit
  | 0, _, _ => ([], none)
  | fuel + 1, n, closeFlag =>
    if closeFlag then ([], some ())
    else
      let st := loopIter (esc n) (ext n) closeFlag
      let rest := renderLoop esc ext fuel (n + 1) st.2
      (st.1 ++ rest.1, rest.2)

/-- Calls of main.cpp lines 28-35: init, window hints, window creation. -/
def bootTrace : List Event :=
  [Event.glfwInit,
   Event.glfwWindowHint GLFW_CONTEXT_VERSION_MAJOR 4,
   Event.glfwWindowHint GLFW_CONTEXT_VERSION_MINOR 6,
   Event.glfwWindowHint GLFW_OPENGL_PROFILE GLFW_OPENGL_CORE_PROFILE,
   Event.glfwCreateWindow 800 600 "LearnOpenGL"]

/-- Calls of main.cpp lines 48-58: make context current, register the resize
callback, load the GL function pointers. -/
def ctxTrace : List Event :=
  [Event.glfwMakeContextCurrent,
   Event.glfwSetFramebufferSizeCallback,
   Event.gladLoadGLLoader]

/-- Semantics of `glGetShaderInfoLog` with a buffer of `bufSize` bytes: the
driver copies at most `bufSize - 1` characters of the log, reserving one byte
for the null terminator. -/
def infoLogCopy (log : String) (bufSize : Nat) : String :=
  (log.toList.take (bufSize - 1)).asString

/-- Calls of main.cpp lines 65-132: geometry upload, vertex-shader build and
status check (lines 107-115: on failure `glGetShaderInfoLog(vertexShader,
512, NULL, infoLog)` retrieves at most 511 characters into the 512-byte
buffer, then the tag and log are printed), fragment-shader build with no
status check, program creation, attach, link with no status check. -/
def setupTrace (vertexCompileOk : Bool) (vertexInfoLog : String) : List Event :=
  [Event.glGenBuffers 1 VBO,
   Event.glBindBuffer GL_ARRAY_BUFFER VBO,
   Event.glBufferData GL_ARRAY_BUFFER verticiesSizeof verticies GL_STATIC_DRAW,
   Event.glCreateShader GL_VERTEX_SHADER vertexShader,
   Event.glShaderSource vertexShader 1 vertexShaderSource,
   Event.glCompileShader vertexShader,
   Event.glGetShaderiv vertexShader GL_COMPILE_STATUS] ++
  (if vertexCompileOk then []
   else
     [Event.glGetShaderInfoLog vertexShader 512,
      Event.printLine
        ("ERROR::SHADER::VERTEX::COMPILATION::FAILED\n" ++ infoLogCopy vertexInfoLog 512)]) ++
  [Event.glCreateShader GL_FRAGMENT_SHADER fragmentShader,
   Event.glShaderSource fragmentShader 1 fragmentShaderSource,
   Event.glCompileShader fragmentShader,
   Event.glCreateProgram shaderProgram,
   Event.glAttachShader shaderProgram vertexShader,
   Event.glAttachShader shaderProgram fragmentShader,
   Event.glLinkProgram shaderProgram]

/-- The whole of `main` (main.cpp lines 27-168): the trace of library calls
it issues and its exit code (`none` if the render loop outlived the fuel).
The return value of `glfwInit` (`env.glfwInitOk`) is not consulted anywhere,
mirroring line 28. -/
def mainProg (env : Env) (fuel : Nat) : List Event × Option Int :=
  if env.windowCreated = false then
    (bootTrace ++ [Event.printLine "Failed to create GLFW window", Event.glfwTerminate],
     some (-1))
  else if env.gladOk = false then
    (bootTrace ++ ctxTrace ++ [Event.printLine "Failed to initialize GLAD"], some (-1))
  else
    let lp := renderLoop env.escKeyState env.externalClose fuel 0 false
    match lp.2 with
    | some _ =>
      (bootTrace ++ ctxTrace ++ setupTrace env.vertexCompileOk env.vertexInfoLog ++
         lp.1 ++ [Event.glfwTerminate], some 0)
    | none =>
      (bootTrace ++ ctxTrace ++ setupTrace env.vertexCompileOk env.vertexInfoLog ++ lp.1,
       none)

/-! ### Event classifiers -/

def isGenBuffers : Event → Bool
  | .glGenBuffers _ _ => true
  | _ => false

def isBindBuffer : Event → Bool
  | .glBindBuffer _ _ => true
  | _ => false

def isBufferWrite : Event → Bool
  | .glBufferData _ _ _ _ => true
  | _ => false

def isUseProgram : Event → Bool
  | .glUseProgram _ => true
  | _ => false

def isDrawCall : Event → Bool
  | .glDrawArrays _ _ _ => true
  | .glDrawElements _ _ => true
  | _ => false

def isClearColor : Event → Bool
  | .glClearColor _ _ _ _ => true
  | _ => false

def isPrint : Event → Bool
  | .printLine _ => true
  | _ => false

def isShaderStatusQuery : Event → Bool
  | .glGetShaderiv _ _ => true
  | _ => false

def isProgramStatusQuery : Event → Bool
  | .glGetProgramiv _ _ => true
  | _ => false

def isInfoLogGet : Event → Bool
  | .glGetShaderInfoLog _ _ => true
  | _ => false

/-- Events a render-loop iteration can emit. -/
def isLoopEvent : Event → Bool
  | .glfwGetKey _ => true
  | .glfwSetWindowShouldClose _ => true
  | .glClearColor _ _ _ _ => true
  | .glClear _ => true
  | .glfwSwapBuffers => true
  | .glfwPollEvents => true
  | _ => false

/-- GL (graphics-API) commands, as opposed to GLFW windowing calls and
console output. -/
def isGLCommand : Event → Bool
  | .glGenBuffers _ _ => true
  | .glBindBuffer _ _ => true
  | .glBufferData _ _ _ _ => true
  | .glCreateShader _ _ => true
  | .glShaderSource _ _ _ => true
  | .glCompileShader _ => true
  | .glGetShaderiv _ _ => true
  | .glGetShaderInfoLog _ _ => true
  | .glCreateProgram _ => true
  | .glAttachShader _ _ => true
  | .glLinkProgram _ => true
  | .glGetProgramiv _ _ => true
  | .glUseProgram _ => true
  | .glDrawArrays _ _ _ => true
  | .glDrawElements _ _ => true
  | .glClearColor _ _ _ _ => true
  | .glClear _ => true
  | .glViewport _ _ _ _ => true
  | _ => false

/-! ### Concrete environments for evaluating the theorems -/

/-- A run where every library call succeeds and no input ever arrives. -/
def envOk : Env :=
  { glfwInitOk := true, windowCreated := true, gladOk := true,
    vertexCompileOk := true, fragmentCompileOk := true, linkOk := true,
    vertexInfoLog := "",
    escKeyState := fun _ => GLFW_RELEASE, externalClose := fun _ => false }

/-- A run where the driver rejects the vertex shader. -/
def envVsFail : Env :=
  { envOk with vertexCompileOk := false, vertexInfoLog := "0:1(10): error" }

/-- A run where Escape is reported pressed from the first frame on. -/
def envEsc : Env :=
  { envOk with escKeyState := fun _ => GLFW_PRESS }

/-! ### Helper lemmas -/

/-- Shape of one render-loop iteration's call list. -/
theorem loopIter_fst (escKey : Nat) (ext c : Bool) :
    (loopIter escKey ext c).1 =
      (if escKey = GLFW_PRESS then
        [Event.glfwGetKey GLFW_KEY_ESCAPE, Event.glfwSetWindowShouldClose true]
       else [Event.glfwGetKey GLFW_KEY_ESCAPE]) ++
      [Event.glClearColor 0.2 0.3 0.3 1.0,
       Event.glClear GL_COLOR_BUFFER_BIT,
       Event.glfwSwapBuffers,
       Event.glfwPollEvents] := by
  by_cases hk : escKey = GLFW_PRESS <;> simp [loopIter, processInput, hk]

/-- Every call of a loop iteration is one of the loop's six calls. -/
theorem loopIter_mem (escKey : Nat) (ext c : Bool) (e : Event)
    (h : e ∈ (loopIter escKey ext c).1) : isLoopEvent e = true := by
  rw [loopIter_fst] at h
  by_cases hk : escKey = GLFW_PRESS
  · simp [hk] at h
    rcases h with rfl | rfl | rfl | rfl | rfl | rfl <;> rfl
  · simp [hk] at h
    rcases h with rfl | rfl | rfl | rfl | rfl <;> rfl

/-- Every call the render loop emits is one of the loop's six calls. -/
theorem renderLoop_mem (esc : Nat → Nat) (ext : Nat → Bool) (fuel n : Nat) (c : Bool)
    (e : Event) (h : e ∈ (renderLoop esc ext fuel n c).1) : isLoopEvent e = true := by
  induction fuel generalizing n c with
  | zero => simp [renderLoop] at h
  | succ fuel ih =>
    rw [renderLoop] at h
    by_cases hc : c = true
    · simp [hc] at h
    · simp only [hc, if_false] at h
      rcases List.mem_append.mp h with h | h
      · exact loopIter_mem _ _ _ _ h
      · exact ih _ _ h

/-- Any classifier that rejects all six loop calls filters the render-loop
trace to nothing. -/
theorem renderLoop_filter_eq_nil (esc : Nat → Nat) (ext : Nat → Bool)
    (p : Event → Bool) (hp : ∀ e, isLoopEvent e = true → p e = false)
    (fuel n : Nat) (c : Bool) :
    (renderLoop esc ext fuel n c).1.filter p = [] := by
  refine List.filter_eq_nil_iff.mpr (fun a ha => ?_)
  simp [hp a (renderLoop_mem esc ext fuel n c a ha)]

/-- The success-path trace of `main`:  boot, context setup, geometry and
shader setup, the render loop, and (if the loop exited) the final teardown. -/
theorem mainProg_trace_success (env : Env) (fuel : Nat)
    (hw : env.windowCreated = true) (hg : env.gladOk = true) :
    (mainProg env fuel).1 =
      bootTrace ++ ctxTrace ++ setupTrace env.vertexCompileOk env.vertexInfoLog ++
        (renderLoop env.escKeyState env.externalClose fuel 0 false).1 ++
        (if (renderLoop env.escKeyState env.externalClose fuel 0 false).2.isSome
         then [Event.glfwTerminate] else []) := by
  rcases ho : (renderLoop env.escKeyState env.externalClose fuel 0 false).2 with _ | u <;>
    simp [mainProg, hw, hg, ho]

/-- Filtering the success-path trace with a classifier that ignores loop
calls and the teardown call reduces to the three setup segments. -/
theorem mainProg_filter (env : Env) (fuel : Nat)
    (hw : env.windowCreated = true) (hg : env.gladOk = true)
    (p : Event → Bool) (hp : ∀ e, isLoopEvent e = true → p e = false)
    (hpt : p Event.glfwTerminate = false) :
    (mainProg env fuel).1.filter p =
      bootTrace.filter p ++ ctxTrace.filter p ++
        (setupTrace env.vertexCompileOk env.vertexInfoLog).filter p := by
  rw [mainProg_trace_success env fuel hw hg]
  rcases ho : (renderLoop env.escKeyState env.externalClose fuel 0 false).2 with _ | u <;>
    simp [ho, List.filter_append,
      renderLoop_filter_eq_nil env.escKeyState env.externalClose p hp, hpt]

/-- `bootTrace` is a segment of the trace in every branch of `main`. -/
theorem mainProg_bootTrace_mem (env : Env) (fuel : Nat) (e : Event)
    (h : e ∈ bootTrace) : e ∈ (mainProg env fuel).1 := by
  by_cases hw : env.windowCreated = false
  · simp [mainProg, hw, List.mem_append, h]
  · by_cases hg : env.gladOk = false
    · simp [mainProg, hw, hg, List.mem_append, h]
    · rcases ho : (renderLoop env.escKeyState env.externalClose fuel 0 false).2 with _ | u <;>
        simp [mainProg, hw, hg, ho, List.mem_append, h]

/-- Loop calls are never buffer-generation calls. -/
theorem isGenBuffers_of_loopEvent (e : Event) (he : isLoopEvent e = true) :
    isGenBuffers e = false := by
  cases e <;> simp_all [isLoopEvent, isGenBuffers]

/-- Loop calls are never buffer-bind calls. -/
theorem isBindBuffer_of_loopEvent (e : Event) (he : isLoopEvent e = true) :
    isBindBuffer e = false := by
  cases e <;> simp_all [isLoopEvent, isBindBuffer]

/-- Loop calls are never buffer writes. -/
theorem isBufferWrite_of_loopEvent (e : Event) (he : isLoopEvent e = true) :
    isBufferWrite e = false := by
  cases e <;> simp_all [isLoopEvent, isBufferWrite]

/-- Loop calls never print. -/
theorem isPrint_of_loopEvent (e : Event) (he : isLoopEvent e = true) :
    isPrint e = false := by
  cases e <;> simp_all [isLoopEvent, isPrint]

/-- Loop calls never retrieve a shader info log. -/
theorem isInfoLogGet_of_loopEvent (e : Event) (he : isLoopEvent e = true) :
    isInfoLogGet e = false := by
  cases e <;> simp_all [isLoopEvent, isInfoLogGet]

/-- Loop calls never query a shader status. -/
theorem isShaderStatusQuery_of_loopEvent (e : Event) (he : isLoopEvent e = true) :
    isShaderStatusQuery e = false := by
  cases e <;> simp_all [isLoopEvent, isShaderStatusQuery]

/-- Loop calls never query a program status. -/
theorem isProgramStatusQuery_of_loopEvent (e : Event) (he : isLoopEvent e = true) :
    isProgramStatusQuery e = false := by
  cases e <;> simp_all [isLoopEvent, isProgramStatusQuery]

/-- Loop calls never activate a program. -/
theorem isUseProgram_of_loopEvent (e : Event) (he : isLoopEvent e = true) :
    isUseProgram e = false := by
  cases e <;> simp_all [isLoopEvent, isUseProgram]

/-- Loop calls are never draw calls. -/
theorem isDrawCall_of_loopEvent (e : Event) (he : isLoopEvent e = true) :
    isDrawCall e = false := by
  cases e <;> simp_all [isLoopEvent, isDrawCall]

/-- One iteration swaps buffers exactly once. -/
theorem loopIter_count_swap (escKey : Nat) (ext c : Bool) :
    (loopIter escKey ext c).1.count Event.glfwSwapBuffers = 1 := by
  by_cases hk : escKey = GLFW_PRESS <;> simp [loopIter_fst, hk]

/-- One iteration clears the color buffer exactly once. -/
theorem loopIter_count_clear (escKey : Nat) (ext c : Bool) :
    (loopIter escKey ext c).1.count (Event.glClear GL_COLOR_BUFFER_BIT) = 1 := by
  by_cases hk : escKey = GLFW_PRESS <;> simp [loopIter_fst, hk]

/-- One iteration polls events exactly once. -/
theorem loopIter_count_poll (escKey : Nat) (ext c : Bool) :
    (loopIter escKey ext c).1.count Event.glfwPollEvents = 1 := by
  by_cases hk : escKey = GLFW_PRESS <;> simp [loopIter_fst, hk]

/-- One iteration queries the Escape key exactly once. -/
theorem loopIter_count_getKey (escKey : Nat) (ext c : Bool) :
    (loopIter escKey ext c).1.count (Event.glfwGetKey GLFW_KEY_ESCAPE) = 1 := by
  by_cases hk : escKey = GLFW_PRESS <;> simp [loopIter_fst, hk]

/-- One iteration sets the clear color exactly once, to (0.2, 0.3, 0.3, 1.0). -/
theorem loopIter_filter_clearColor (escKey : Nat) (ext c : Bool) :
    (loopIter escKey ext c).1.filter isClearColor =
      [Event.glClearColor 0.2 0.3 0.3 1.0] := by
  by_cases hk : escKey = GLFW_PRESS <;> simp [loopIter_fst, hk, isClearColor]

/-- If the close flag is already set, the loop exits at once with no calls. -/
theorem renderLoop_closed (esc : Nat → Nat) (ext : Nat → Bool) (fuel n : Nat) :
    renderLoop esc ext (fuel + 1) n true = ([], some ()) := by
  rw [renderLoop]
  simp

/-- With fuel left and the close flag unset, the loop runs one body and
continues with the flag the body computed. -/
theorem renderLoop_step (esc : Nat → Nat) (ext : Nat → Bool) (fuel n : Nat) :
    renderLoop esc ext (fuel + 1) n false =
      ((loopIter (esc n) (ext n) false).1 ++
        (renderLoop esc ext fuel (n + 1) (loopIter (esc n) (ext n) false).2).1,
       (renderLoop esc ext fuel (n + 1) (loopIter (esc n) (ext n) false).2).2) := by
  rw [renderLoop]
  simp

/-- A loop that still has fuel and an unset close flag swaps buffers. -/
theorem renderLoop_swap_mem (esc : Nat → Nat) (ext : Nat → Bool) (fuel n : Nat) :
    Event.glfwSwapBuffers ∈ (renderLoop esc ext (fuel + 1) n false).1 := by
  rw [renderLoop_step]
  by_cases hk : esc n = GLFW_PRESS <;> simp [loopIter_fst, hk]

/-- Per-frame invariants of the whole render-loop trace: the clear colors
form one fixed color per buffer swap, and clears, event polls and key reads
each happen exactly once per buffer swap. -/
theorem renderLoop_counts (esc : Nat → Nat) (ext : Nat → Bool) (fuel n : Nat) (c : Bool) :
    (renderLoop esc ext fuel n c).1.filter isClearColor =
      List.replicate ((renderLoop esc ext fuel n c).1.count Event.glfwSwapBuffers)
        (Event.glClearColor 0.2 0.3 0.3 1.0) ∧
    (renderLoop esc ext fuel n c).1.count (Event.glClear GL_COLOR_BUFFER_BIT) =
      (renderLoop esc ext fuel n c).1.count Event.glfwSwapBuffers ∧
    (renderLoop esc ext fuel n c).1.count Event.glfwPollEvents =
      (renderLoop esc ext fuel n c).1.count Event.glfwSwapBuffers ∧
    (renderLoop esc ext fuel n c).1.count (Event.glfwGetKey GLFW_KEY_ESCAPE) =
      (renderLoop esc ext fuel n c).1.count Event.glfwSwapBuffers := by
  induction fuel generalizing n c with
  | zero => simp [renderLoop]
  | succ fuel ih =>
    by_cases hc : c = true
    · subst hc
      simp [renderLoop_closed]
    · have hc' : c = false := by simp_all
      subst hc'
      obtain ⟨ih1, ih2, ih3, ih4⟩ := ih (n + 1) (loopIter (esc n) (ext n) false).2
      rw [renderLoop_step]
      refine ⟨?_, ?_, ?_, ?_⟩
      · rw [List.filter_append, List.count_append, ih1, loopIter_filter_clearColor,
          loopIter_count_swap, Nat.add_comm 1, List.replicate_succ]
        rfl
      · rw [List.count_append, List.count_append, ih2, loopIter_count_clear,
          loopIter_count_swap]
      · rw [List.count_append, List.count_append, ih3, loopIter_count_poll,
          loopIter_count_swap]
      · rw [List.count_append, List.count_append, ih4, loopIter_count_getKey,
          loopIter_count_swap]

/-- The exit code of `main` as a function of the environment: -1 when window
creation or loader resolution fails, 0 when the loop exits via the close
flag, still running (`none`) otherwise. -/
theorem mainProg_exit (env : Env) (fuel : Nat) :
    (mainProg env fuel).2 =
      (if env.windowCreated = false then some (-1)
       else if env.gladOk = false then some (-1)
       else if (renderLoop env.escKeyState env.externalClose fuel 0 false).2.isSome
       then some 0 else none) := by
  rcases Bool.eq_false_or_eq_true env.windowCreated with hw | hw
  · rcases Bool.eq_false_or_eq_true env.gladOk with hg | hg
    · rcases ho : (renderLoop env.escKeyState env.externalClose fuel 0 false).2 with _ | u <;>
        simp [mainProg, hw, hg, ho]
    · simp [mainProg, hw, hg]
  · simp [mainProg, hw]

/-- Everything `main` ever prints, as a function of the environment: the
window-creation failure message, the loader failure message, or (only when
the vertex-shader status query reports failure) the tagged compile log. -/
theorem mainProg_prints (env : Env) (fuel : Nat) :
    (mainProg env fuel).1.filter isPrint =
      (if env.windowCreated = false then [Event.printLine "Failed to create GLFW window"]
       else if env.gladOk = false then [Event.printLine "Failed to initialize GLAD"]
       else if env.vertexCompileOk then []
       else [Event.printLine ("ERROR::SHADER::VERTEX::COMPILATION::FAILED\n" ++
              infoLogCopy env.vertexInfoLog 512)]) := by
  rcases Bool.eq_false_or_eq_true env.windowCreated with hw | hw
  · rcases Bool.eq_false_or_eq_true env.gladOk with hg | hg
    · rw [mainProg_filter env fuel hw hg isPrint isPrint_of_loopEvent rfl]
      rcases hb : env.vertexCompileOk with _ | _ <;>
        simp [setupTrace, bootTrace, ctxTrace, hw, hg, hb, isPrint]
    · simp [mainProg, hw, hg, bootTrace, ctxTrace, isPrint]
  · simp [mainProg, hw, bootTrace, isPrint]

/-! ### The claims -/

/-- C1: over the whole run (window created, loader resolved), the program
generates exactly one buffer, binds exactly one buffer (to the array-buffer
target), and performs exactly one buffer write: 36 bytes (9 floats of 4
bytes) holding -0.5,-0.5,0, 0.5,-0.5,0, 0,0.5,0 in that order, with the
GL_STATIC_DRAW ("set once, used many times") usage hint; no other buffer
write ever occurs, so the values are never mutated afterwards. -/
theorem c1_geometry_upload (env : Env) (fuel : Nat)
    (hw : env.windowCreated = true) (hg : env.gladOk = true) :
    (mainProg env fuel).1.filter isGenBuffers = [Event.glGenBuffers 1 VBO] ∧
    (mainProg env fuel).1.filter isBindBuffer = [Event.glBindBuffer GL_ARRAY_BUFFER VBO] ∧
    (mainProg env fuel).1.filter isBufferWrite =
      [Event.glBufferData GL_ARRAY_BUFFER 36
        [-0.5, -0.5, 0, 0.5, -0.5, 0, 0, 0.5, 0] GL_STATIC_DRAW] ∧
    verticiesSizeof = 36 := by
  refine ⟨?_, ?_, ?_, rfl⟩
  · rw [mainProg_filter env fuel hw hg isGenBuffers isGenBuffers_of_loopEvent rfl]
    rcases hb : env.vertexCompileOk with _ | _ <;>
      simp [setupTrace, bootTrace, ctxTrace, hb, isGenBuffers]
  · rw [mainProg_filter env fuel hw hg isBindBuffer isBindBuffer_of_loopEvent rfl]
    rcases hb : env.vertexCompileOk with _ | _ <;>
      simp [setupTrace, bootTrace, ctxTrace, hb, isBindBuffer]
  · rw [mainProg_filter env fuel hw hg isBufferWrite isBufferWrite_of_loopEvent rfl]
    rcases hb : env.vertexCompileOk with _ | _ <;>
      simp [setupTrace, bootTrace, ctxTrace, hb, isBufferWrite, verticiesSizeof, verticies] <;>
      norm_num

/-- Witness: C1 evaluated on a concrete successful run. -/
theorem c1_geometry_upload_witness :
    (mainProg envOk 1).1.filter isGenBuffers = [Event.glGenBuffers 1 VBO] ∧
    (mainProg envOk 1).1.filter isBindBuffer = [Event.glBindBuffer GL_ARRAY_BUFFER VBO] ∧
    (mainProg envOk 1).1.filter isBufferWrite =
      [Event.glBufferData GL_ARRAY_BUFFER 36
        [-0.5, -0.5, 0, 0.5, -0.5, 0, 0, 0.5, 0] GL_STATIC_DRAW] ∧
    verticiesSizeof = 36 :=
  c1_geometry_upload envOk 1 rfl rfl

/-- C9: the fragment shader's embedded source begins with the misspelled
directive: its first line (the characters before the first newline) is
exactly "#verson 460 core", and the source does not begin with "#version". -/
theorem c9_fragment_version_typo :
    (fragmentShaderSource.toList.takeWhile (fun c => c != '\n')).asString =
      "#verson 460 core" ∧
    fragmentShaderSource.toList.take 17 = "#verson 460 core\n".toList ∧
    fragmentShaderSource.toList.take 8 ≠ "#version".toList := by
  refine ⟨?_, ?_, ?_⟩ <;> decide

/-- C2: (window created, loader resolved) the tagged compile-log message is
printed if and only if the vertex shader's compile-status query reports
failure; on failure the info log is fetched once into a 512-byte buffer, so
at most 511 characters are retrieved; and in either case execution continues:
the fragment shader is still compiled, the program is still linked, the
render loop still runs (given fuel), and the exit code does not depend on the
vertex compile status. -/
theorem c2_vertex_compile_check (env : Env) (fuel : Nat) (b : Bool)
    (hw : env.windowCreated = true) (hg : env.gladOk = true) :
    (Event.printLine ("ERROR::SHADER::VERTEX::COMPILATION::FAILED\n" ++
        infoLogCopy env.vertexInfoLog 512) ∈ (mainProg env fuel).1 ↔
      env.vertexCompileOk = false) ∧
    (mainProg env fuel).1.filter isInfoLogGet =
      (if env.vertexCompileOk then []
       else [Event.glGetShaderInfoLog vertexShader 512]) ∧
    (infoLogCopy env.vertexInfoLog 512).length ≤ 511 ∧
    Event.glCompileShader fragmentShader ∈ (mainProg env fuel).1 ∧
    Event.glLinkProgram shaderProgram ∈ (mainProg env fuel).1 ∧
    Event.glfwSwapBuffers ∈ (mainProg env (fuel + 1)).1 ∧
    (mainProg { env with vertexCompileOk := b } fuel).2 = (mainProg env fuel).2 := by
  refine ⟨⟨?_, ?_⟩, ?_, ?_, ?_, ?_, ?_, ?_⟩
  · intro hmem
    rcases Bool.eq_false_or_eq_true env.vertexCompileOk with hb | hb
    · exfalso
      have h1 : Event.printLine ("ERROR::SHADER::VERTEX::COMPILATION::FAILED\n" ++
          infoLogCopy env.vertexInfoLog 512) ∈ (mainProg env fuel).1.filter isPrint :=
        List.mem_filter.mpr ⟨hmem, rfl⟩
      rw [mainProg_prints env fuel] at h1
      simp [hw, hg, hb] at h1
    · exact hb
  · intro hb
    rw [mainProg_trace_success env fuel hw hg]
    simp [setupTrace, hb, List.mem_append]
  · rw [mainProg_filter env fuel hw hg isInfoLogGet isInfoLogGet_of_loopEvent rfl]
    rcases hb : env.vertexCompileOk with _ | _ <;>
      simp [setupTrace, bootTrace, ctxTrace, hb, isInfoLogGet]
  · have h1 : (infoLogCopy env.vertexInfoLog 512).length =
        min 511 env.vertexInfoLog.toList.length := by
      simp [infoLogCopy, List.length_asString]
    rw [h1]
    exact Nat.min_le_left _ _
  · rw [mainProg_trace_success env fuel hw hg]
    rcases hb : env.vertexCompileOk with _ | _ <;>
      simp [setupTrace, hb, List.mem_append]
  · rw [mainProg_trace_success env fuel hw hg]
    rcases hb : env.vertexCompileOk with _ | _ <;>
      simp [setupTrace, hb, List.mem_append]
  · rw [mainProg_trace_success env (fuel + 1) hw hg]
    have hs := renderLoop_swap_mem env.escKeyState env.externalClose fuel 0
    simp only [List.mem_append]
    exact Or.inl (Or.inr hs)
  · rw [mainProg_exit { env with vertexCompileOk := b } fuel, mainProg_exit env fuel]

/-- Witness: C2 evaluated on a concrete run whose vertex shader fails to
compile. -/
theorem c2_vertex_compile_check_witness :
    (Event.printLine ("ERROR::SHADER::VERTEX::COMPILATION::FAILED\n" ++
        infoLogCopy envVsFail.vertexInfoLog 512) ∈ (mainProg envVsFail 1).1 ↔
      envVsFail.vertexCompileOk = false) ∧
    (mainProg envVsFail 1).1.filter isInfoLogGet =
      (if envVsFail.vertexCompileOk then []
       else [Event.glGetShaderInfoLog vertexShader 512]) ∧
    (infoLogCopy envVsFail.vertexInfoLog 512).length ≤ 511 ∧
    Event.glCompileShader fragmentShader ∈ (mainProg envVsFail 1).1 ∧
    Event.glLinkProgram shaderProgram ∈ (mainProg envVsFail 1).1 ∧
    Event.glfwSwapBuffers ∈ (mainProg envVsFail (1 + 1)).1 ∧
    (mainProg { envVsFail with vertexCompileOk := true } 1).2 = (mainProg envVsFail 1).2 :=
  c2_vertex_compile_check envVsFail 1 true rfl rfl

/-- C3: the fragment shader's compile status and the program's link status
are never queried — the whole run (trace and exit code) is unchanged under
any value of either status, no program-status query ever appears, the only
shader-status query is the vertex one, and in particular the fragment
shader's compile status is never read. -/
theorem c3_fragment_and_link_status_never_queried (env : Env) (fuel : Nat) (b b' : Bool) :
    mainProg { env with fragmentCompileOk := b, linkOk := b' } fuel = mainProg env fuel ∧
    (mainProg env fuel).1.filter isProgramStatusQuery = [] ∧
    (mainProg env fuel).1.filter isShaderStatusQuery =
      (if env.windowCreated = false then []
       else if env.gladOk = false then []
       else [Event.glGetShaderiv vertexShader GL_COMPILE_STATUS]) ∧
    Event.glGetShaderiv fragmentShader GL_COMPILE_STATUS ∉ (mainProg env fuel).1 := by
  have hq : (mainProg env fuel).1.filter isShaderStatusQuery =
      (if env.windowCreated = false then []
       else if env.gladOk = false then []
       else [Event.glGetShaderiv vertexShader GL_COMPILE_STATUS]) := by
    rcases Bool.eq_false_or_eq_true env.windowCreated with hw | hw
    · rcases Bool.eq_false_or_eq_true env.gladOk with hg | hg
      · rw [mainProg_filter env fuel hw hg isShaderStatusQuery
          isShaderStatusQuery_of_loopEvent rfl]
        rcases hb : env.vertexCompileOk with _ | _ <;>
          simp [setupTrace, bootTrace, ctxTrace, hw, hg, hb, isShaderStatusQuery]
      · simp [mainProg, hw, hg, bootTrace, ctxTrace, isShaderStatusQuery]
    · simp [mainProg, hw, bootTrace, isShaderStatusQuery]
  refine ⟨rfl, ?_, hq, ?_⟩
  · rcases Bool.eq_false_or_eq_true env.windowCreated with hw | hw
    · rcases Bool.eq_false_or_eq_true env.gladOk with hg | hg
      · rw [mainProg_filter env fuel hw hg isProgramStatusQuery
          isProgramStatusQuery_of_loopEvent rfl]
        rcases hb : env.vertexCompileOk with _ | _ <;>
          simp [setupTrace, bootTrace, ctxTrace, hb, isProgramStatusQuery]
      · simp [mainProg, hw, hg, bootTrace, ctxTrace, isProgramStatusQuery]
    · simp [mainProg, hw, bootTrace, isProgramStatusQuery]
  · intro hmem
    have h1 : Event.glGetShaderiv fragmentShader GL_COMPILE_STATUS ∈
        (mainProg env fuel).1.filter isShaderStatusQuery :=
      List.mem_filter.mpr ⟨hmem, rfl⟩
    rw [hq] at h1
    rcases Bool.eq_false_or_eq_true env.windowCreated with hw | hw <;>
      rcases Bool.eq_false_or_eq_true env.gladOk with hg | hg <;>
      simp [hw, hg, vertexShader, fragmentShader] at h1

/-- C4: the program never activates a shader program and never issues a draw
call anywhere in its run, and the only graphics-API commands a render-loop
iteration executes are the fixed clear-color set and the color-buffer clear. -/
theorem c4_loop_never_draws (env : Env) (fuel : Nat) (escKey : Nat) (ext c : Bool) :
    (mainProg env fuel).1.filter isUseProgram = [] ∧
    (mainProg env fuel).1.filter isDrawCall = [] ∧
    (loopIter escKey ext c).1.filter isGLCommand =
      [Event.glClearColor 0.2 0.3 0.3 1.0, Event.glClear GL_COLOR_BUFFER_BIT] := by
  refine ⟨?_, ?_, ?_⟩
  · rcases Bool.eq_false_or_eq_true env.windowCreated with hw | hw
    · rcases Bool.eq_false_or_eq_true env.gladOk with hg | hg
      · rw [mainProg_filter env fuel hw hg isUseProgram isUseProgram_of_loopEvent rfl]
        rcases hb : env.vertexCompileOk with _ | _ <;>
          simp [setupTrace, bootTrace, ctxTrace, hb, isUseProgram]
      · simp [mainProg, hw, hg, bootTrace, ctxTrace, isUseProgram]
    · simp [mainProg, hw, bootTrace, isUseProgram]
  · rcases Bool.eq_false_or_eq_true env.windowCreated with hw | hw
    · rcases Bool.eq_false_or_eq_true env.gladOk with hg | hg
      · rw [mainProg_filter env fuel hw hg isDrawCall isDrawCall_of_loopEvent rfl]
        rcases hb : env.vertexCompileOk with _ | _ <;>
          simp [setupTrace, bootTrace, ctxTrace, hb, isDrawCall]
      · simp [mainProg, hw, hg, bootTrace, ctxTrace, isDrawCall]
    · simp [mainProg, hw, bootTrace, isDrawCall]
  · by_cases hk : escKey = GLFW_PRESS <;> simp [loopIter_fst, hk, isGLCommand]

/-- C5: if the Escape key is reported pressed at iteration `n`, the
input-processing step sets the close flag, and a loop arriving at iteration
`n` with the flag unset runs exactly that one iteration and exits: its whole
remaining trace is the single body, it terminates via the close flag, and it
swaps buffers exactly once more. -/
theorem c5_escape_exits_within_one_iteration (esc : Nat → Nat) (ext : Nat → Bool)
    (fuel n : Nat) (h : esc n = GLFW_PRESS) :
    (processInput (esc n) false).2 = true ∧
    renderLoop esc ext (fuel + 2) n false =
      ((loopIter (esc n) (ext n) false).1, some ()) ∧
    (renderLoop esc ext (fuel + 2) n false).1.count Event.glfwSwapBuffers = 1 := by
  have hp : (processInput (esc n) false).2 = true := by simp [processInput, h]
  have hst : (loopIter (esc n) (ext n) false).2 = true := by
    simp [loopIter, hp]
  have h2 : renderLoop esc ext (fuel + 2) n false =
      ((loopIter (esc n) (ext n) false).1, some ()) := by
    show renderLoop esc ext ((fuel + 1) + 1) n false = _
    rw [renderLoop_step, hst, renderLoop_closed]
    simp
  exact ⟨hp, h2, by rw [h2]; exact loopIter_count_swap (esc n) (ext n) false⟩

/-- Witness: C5 evaluated on a concrete run with Escape pressed at frame 0. -/
theorem c5_escape_exits_within_one_iteration_witness :
    (processInput (envEsc.escKeyState 0) false).2 = true ∧
    renderLoop envEsc.escKeyState envEsc.externalClose (0 + 2) 0 false =
      ((loopIter (envEsc.escKeyState 0) (envEsc.externalClose 0) false).1, some ()) ∧
    (renderLoop envEsc.escKeyState envEsc.externalClose (0 + 2) 0 false).1.count
      Event.glfwSwapBuffers = 1 :=
  c5_escape_exits_within_one_iteration envEsc.escKeyState envEsc.externalClose 0 0 rfl

/-- C6: each render-loop iteration performs, in order, input processing
(Escape poll, plus the close-flag set exactly when Escape is pressed), the
fixed clear-color set (0.2, 0.3, 0.3, 1.0), the color-buffer clear, the
buffer swap and the event poll; and over any whole loop trace the clear
colors are one fixed color per buffer swap, with clears, event polls and key
reads each happening exactly once per swap — no frame skipped or duplicated. -/
theorem c6_frame_invariants (esc : Nat → Nat) (ext : Nat → Bool)
    (fuel n : Nat) (c : Bool) (escKey : Nat) (extNow cNow : Bool) :
    (loopIter escKey extNow cNow).1 =
      (if escKey = GLFW_PRESS then
        [Event.glfwGetKey GLFW_KEY_ESCAPE, Event.glfwSetWindowShouldClose true]
       else [Event.glfwGetKey GLFW_KEY_ESCAPE]) ++
      [Event.glClearColor 0.2 0.3 0.3 1.0,
       Event.glClear GL_COLOR_BUFFER_BIT,
       Event.glfwSwapBuffers,
       Event.glfwPollEvents] ∧
    (renderLoop esc ext fuel n c).1.filter isClearColor =
      List.replicate ((renderLoop esc ext fuel n c).1.count Event.glfwSwapBuffers)
        (Event.glClearColor 0.2 0.3 0.3 1.0) ∧
    (renderLoop esc ext fuel n c).1.count (Event.glClear GL_COLOR_BUFFER_BIT) =
      (renderLoop esc ext fuel n c).1.count Event.glfwSwapBuffers ∧
    (renderLoop esc ext fuel n c).1.count Event.glfwPollEvents =
      (renderLoop esc ext fuel n c).1.count Event.glfwSwapBuffers ∧
    (renderLoop esc ext fuel n c).1.count (Event.glfwGetKey GLFW_KEY_ESCAPE) =
      (renderLoop esc ext fuel n c).1.count Event.glfwSwapBuffers := by
  obtain ⟨h1, h2, h3, h4⟩ := renderLoop_counts esc ext fuel n c
  exact ⟨loopIter_fst escKey extNow cNow, h1, h2, h3, h4⟩

/-- C7: the exit code is -1 exactly on the two failure paths (window creation
returning a null handle, or GL function-pointer resolution failing), each
after its fixed message — these are also the only prints apart from the
vertex-shader diagnostic — and 0 exactly on normal termination via the close
flag; on both failure paths the render loop is never entered (no buffer swap
occurs). -/
theorem c7_exit_codes (env : Env) (fuel : Nat) :
    (mainProg env fuel).2 =
      (if env.windowCreated = false then some (-1)
       else if env.gladOk = false then some (-1)
       else if (renderLoop env.escKeyState env.externalClose fuel 0 false).2.isSome
       then some 0 else none) ∧
    (mainProg env fuel).1.filter isPrint =
      (if env.windowCreated = false then [Event.printLine "Failed to create GLFW window"]
       else if env.gladOk = false then [Event.printLine "Failed to initialize GLAD"]
       else if env.vertexCompileOk then []
       else [Event.printLine ("ERROR::SHADER::VERTEX::COMPILATION::FAILED\n" ++
              infoLogCopy env.vertexInfoLog 512)]) ∧
    Event.glfwSwapBuffers ∉ (mainProg { env with windowCreated := false } fuel).1 ∧
    Event.glfwSwapBuffers ∉
      (mainProg { env with windowCreated := true, gladOk := false } fuel).1 := by
  refine ⟨mainProg_exit env fuel, mainProg_prints env fuel, ?_, ?_⟩
  · simp [mainProg, bootTrace]
  · simp [mainProg, bootTrace, ctxTrace]

/-- C8: on the function-pointer-resolution failure path the program returns
without ever calling the windowing library's teardown, while on the
window-creation failure path the teardown call is the very last call of the
run; each path prints its fixed message. -/
theorem c8_teardown_asymmetry (env : Env) (fuel : Nat) :
    Event.glfwTerminate ∉
      (mainProg { env with windowCreated := true, gladOk := false } fuel).1 ∧
    (mainProg { env with windowCreated := false } fuel).1.getLast? =
      some Event.glfwTerminate ∧
    Event.printLine "Failed to initialize GLAD" ∈
      (mainProg { env with windowCreated := true, gladOk := false } fuel).1 ∧
    Event.printLine "Failed to create GLFW window" ∈
      (mainProg { env with windowCreated := false } fuel).1 := by
  refine ⟨?_, ?_, ?_, ?_⟩
  · simp [mainProg, bootTrace, ctxTrace]
  · rfl
  · simp [mainProg, bootTrace, ctxTrace]
  · simp [mainProg, bootTrace]

/-- C10: the return value of the windowing library's process-wide
initialization is never consulted: the entire run (trace and exit code) is
unchanged under any value of it, and even when it reports failure the
program still sets all three window hints and still creates the window. -/
theorem c10_init_result_ignored (env : Env) (fuel : Nat) (b : Bool) :
    mainProg { env with glfwInitOk := b } fuel = mainProg env fuel ∧
    Event.glfwWindowHint GLFW_CONTEXT_VERSION_MAJOR 4 ∈
      (mainProg { env with glfwInitOk := false } fuel).1 ∧
    Event.glfwWindowHint GLFW_CONTEXT_VERSION_MINOR 6 ∈
      (mainProg { env with glfwInitOk := false } fuel).1 ∧
    Event.glfwWindowHint GLFW_OPENGL_PROFILE GLFW_OPENGL_CORE_PROFILE ∈
      (mainProg { env with glfwInitOk := false } fuel).1 ∧
    Event.glfwCreateWindow 800 600 "LearnOpenGL" ∈
      (mainProg { env with glfwInitOk := false } fuel).1 := by
  refine ⟨rfl, ?_, ?_, ?_, ?_⟩ <;>
    exact mainProg_bootTrace_mem _ fuel _ (by simp [bootTrace])
